import Mathlib

/-!
Verification development for the whisperkey dictation utility.

Shallow embedding of the recording/transcription pipeline:
`AudioRecorder` (app/whisperkey/audio_recorder.py), the supervisory
`RecordingThread` loop (app/whisperkey/main.py), `AudioDeviceManager`
(app/whisperkey/audio_device_manager.py), `StreamingTranscriber`
(app/voxvibe/streaming_transcriber.py) and `LLMProcessor`
(app/voxvibe/llm_processor.py).  Pure functions are translated to Lean
functions; stateful methods become explicit state-passing functions that
additionally return the externally visible effects they perform, so that
"no device I/O" and "no thread spawned" are statable.
-/

namespace WhisperKey

/-! ## AudioRecorder (audio_recorder.py)

Samples are rationals (the code uses float32 amplitudes; the claims under
study concern ordering and averaging, not rounding).  A chunk delivered by
the capture callback is a 2-dimensional array of shape (frames, channels),
modelled as a list of frames, each frame a list of per-channel samples —
both the sounddevice path (`indata.copy()`) and the PulseAudio path
(`reshape(-1, channels)` / `reshape(-1, 1)`) enqueue 2-D arrays. -/

/-- One frame of captured audio: one sample per channel. -/
abbrev Frame := List ℚ

/-- One chunk pushed onto `audio_queue` by the capture loop. -/
abbrev Chunk := List Frame

/-- Externally visible actions of `AudioRecorder` methods: thread spawning,
queue replacement, thread join, forced cleanup, and the non-blocking drain
of the sample queue.  "Device I/O" (stream/subprocess/queue operations) is
visible through these. -/
inductive AudioEffect where
  | spawnThread
  | resetQueue
  | joinThread
  | forceCleanup
  | drainQueue
  deriving DecidableEq, Repr

/-- State of an `AudioRecorder` instance (audio_recorder.py, `__init__`).
`threadAlive` models `recording_thread is not None and
recording_thread.is_alive()`; `threadResponsive` models whether a
`join(timeout=1.0)` on the capture thread returns before the timeout. -/
structure AudioRecorder where
  is_recording : Bool
  audio_queue : List Chunk
  threadAlive : Bool
  threadResponsive : Bool
  deriving DecidableEq, Repr

/-- `AudioRecorder.start_recording` (audio_recorder.py lines 30-50).
If already recording: log and return — no state change, no effects.
Otherwise force-cleanup a leftover live thread, reset the queue, set
`is_recording` and spawn the capture thread. -/
def AudioRecorder.start_recording (s : AudioRecorder) :
    AudioRecorder × List AudioEffect :=
  if s.is_recording then
    (s, [])
  else
    let cleanupEffects := if s.threadAlive then [AudioEffect.forceCleanup] else []
    ({ s with
        is_recording := true
        audio_queue := []
        threadAlive := true
        threadResponsive := true },
      cleanupEffects ++ [AudioEffect.resetQueue, AudioEffect.spawnThread])

/-- `np.mean(audio_data, axis=1)` applied to one frame: channel average. -/
def channelMean (f : Frame) : ℚ := f.sum / f.length

/-- The drain loop of `stop_recording` (audio_recorder.py lines 322-328):
`while not empty: get_nowait()`, collecting chunks in arrival order. -/
def drainLoop : List Chunk → List Chunk
  | [] => []
  | c :: rest => c :: drainLoop rest

/-- `np.concatenate(audio_chunks, axis=0)`: stack the frames of all chunks
in order. -/
def concatChunks (chunks : List Chunk) : List Frame :=
  chunks.foldr (fun c acc => c ++ acc) []

/-- `AudioRecorder.stop_recording` (audio_recorder.py lines 298-344).
Returns the new state, the optional audio buffer, and the performed
effects.  When idle it returns immediately with `none`.  Otherwise it
clears `is_recording`, joins the capture thread (escalating to
`force_cleanup` when the join times out), drains the queue, and either
returns `none` (no chunks) or the concatenation of the chunks with
`np.mean` over channels (the concatenated array is 2-D, so the
`ndim > 1` branch applies). -/
def AudioRecorder.stop_recording (s : AudioRecorder) :
    AudioRecorder × Option (List ℚ) × List AudioEffect :=
  if s.is_recording = false then
    (s, none, [])
  else
    let joinEffects :=
      if s.threadAlive then
        if s.threadResponsive then [AudioEffect.joinThread]
        else [AudioEffect.joinThread, AudioEffect.forceCleanup]
      else []
    let chunks := drainLoop s.audio_queue
    let s' : AudioRecorder :=
      { s with is_recording := false, audio_queue := [], threadAlive := false }
    let buffer : Option (List ℚ) :=
      if chunks.isEmpty then none
      else some ((concatChunks chunks).map channelMean)
    (s', buffer, joinEffects ++ [AudioEffect.drainQueue])

/-- Specification-side description of the drained buffer: the chunks'
frames concatenated in arrival order, channel-averaged to mono. -/
def orderedMonoConcat (chunks : List Chunk) : List ℚ :=
  (chunks.flatMap id).map channelMean

/-! ## RecordingThread.run (main.py lines 52-85)

The supervisory loop polls every 50 ms:
`while self.recorder.is_recording and (not self.should_stop or elapsed < 0.5)`
(main.py line 69) — both conjuncts are modelled: the loop also exits as
soon as the recorder stops capturing, which happens when the capture
thread hits an error and clears `is_recording`
(audio_recorder.py lines 69, 116, 264).

A session is driven by its environment: `stopRequestMs` is the time at
which `RecordingThread.stop_recording` sets `should_stop` (main.py line
94 — it only sets the flag), and `captureFailTick` is the poll tick at
which the capture thread errors out (or `none` for a healthy session).
While the capture thread is healthy it delivers audio in real time at the
fixed 16 kHz rate, modelled as one mono chunk of 50 ms worth of samples
per poll interval; the loop checks the condition at ticks `0, 1, 2, …`
(times `0, 50, 100, …` ms), and the fuel argument is an upper bound on
iterations large enough that the loop always reaches its exit
condition. -/

/-- `min_recording_time = 0.5` (main.py line 67), in ms. -/
def minRecordingMs : ℕ := 500

/-- `self.msleep(50)` (main.py line 70), in ms. -/
def pollIntervalMs : ℕ := 50

/-- `AudioRecorder.__init__` default `sample_rate=16000`. -/
def sampleRate : ℕ := 16000

/-- Environment of one recording session: when the stop request arrives,
and whether/when the capture thread errors out and clears
`is_recording`. -/
structure SessionEnv where
  stopRequestMs : ℕ
  captureFailTick : Option ℕ
  deriving DecidableEq, Repr

/-- The samples a healthy capture thread enqueues during one 50 ms poll
interval: 50 ms at 16 kHz of mono frames. -/
def captureChunk : Chunk :=
  List.replicate (pollIntervalMs * sampleRate / 1000) [0]

/-- `recorder.is_recording` as observed at poll tick `k`: true until the
capture thread's error handler clears it at `captureFailTick`. -/
def isRecordingAt (env : SessionEnv) (k : ℕ) : Bool :=
  match env.captureFailTick with
  | none => true
  | some f => decide (k < f)

/-- The recorder's sample queue as observed at poll tick `k`: one chunk
per completed poll interval during which the capture thread was still
running. -/
def queueAt (env : SessionEnv) (k : ℕ) : List Chunk :=
  match env.captureFailTick with
  | none => List.replicate k captureChunk
  | some f => List.replicate (min k f) captureChunk

/-- The polling loop of `RecordingThread.run` (main.py lines 69-77),
returning the poll tick at which the loop exits.  The loop continues
while `recorder.is_recording ∧ (¬ should_stop ∨ elapsed < 500 ms)`, with
`should_stop` set from `stopRequestMs` onwards. -/
def runLoopTick (env : SessionEnv) : ℕ → ℕ → ℕ
  | 0, k => k
  | fuel + 1, k =>
    if isRecordingAt env k = true ∧
        (¬ env.stopRequestMs ≤ k * pollIntervalMs ∨
          k * pollIntervalMs < minRecordingMs) then
      runLoopTick env fuel (k + 1)
    else
      k

/-- Outcome of one supervised recording session. -/
structure SessionOutcome where
  stopCallMs : ℕ
  recorder : AudioRecorder
  audio : Option (List ℚ)
  effects : List AudioEffect
  deriving DecidableEq, Repr

/-- `RecordingThread.run` (main.py lines 52-85): run the polling loop,
then call `recorder.stop_recording()` on the recorder state reached at
the exit tick; `stopCallMs` is the elapsed time of that call and `audio`
the buffer it returns (emitted via `recording_finished`). -/
def runSession (env : SessionEnv) : SessionOutcome :=
  let exitTick := runLoopTick env (env.stopRequestMs + minRecordingMs) 0
  let recorderAtExit : AudioRecorder :=
    { is_recording := isRecordingAt env exitTick
      audio_queue := queueAt env exitTick
      threadAlive := isRecordingAt env exitTick
      threadResponsive := true }
  let result := recorderAtExit.stop_recording
  { stopCallMs := exitTick * pollIntervalMs
    recorder := result.1
    audio := result.2.1
    effects := result.2.2 }

/-! ## AudioDeviceManager (audio_device_manager.py)

We model the switching-mode configuration state machine and the device
swaps performed on a recording start/stop pair.  External `pactl`/`wpctl`
calls are abstracted into `DeviceAction`s; the claims under study concern
which mode's devices get swapped, not the subprocess plumbing. -/

/-- Python truthiness of an optional device-name field (`None` and the
empty string are falsy). -/
def pyTruthy : Option String → Bool
  | none => false
  | some s => s ≠ ""

/-- Device-control operations issued by the manager during a start/stop
switch. -/
inductive DeviceAction where
  | setDefaultSource (dev : String)
  | setDefaultSink (dev : String)
  | bluetoothToHeadset
  | bluetoothToA2dp
  deriving DecidableEq, Repr

/-- The externally mutable current default devices, read by the legacy
path when storing originals (`get_current_default_source`/`…_sink`). -/
structure CurrentDevices where
  defaultSource : Option String
  defaultSink : Option String
  deriving DecidableEq, Repr

/-- `AudioDeviceManager` configuration state (audio_device_manager.py,
`__init__` lines 28-50). -/
structure AudioDeviceManager where
  preferred_mic_device : Option String
  preferred_output_device : Option String
  original_mic_device : Option String
  original_output_device : Option String
  dictating_mic : Option String
  dictating_output : Option String
  normal_mic : Option String
  normal_output : Option String
  switching_enabled : Bool
  four_device_mode : Bool
  bluetooth_switching_enabled : Bool
  deriving DecidableEq, Repr

/-- Fresh manager: all device preferences unset, switching disabled. -/
def AudioDeviceManager.init : AudioDeviceManager :=
  { preferred_mic_device := none
    preferred_output_device := none
    original_mic_device := none
    original_output_device := none
    dictating_mic := none
    dictating_output := none
    normal_mic := none
    normal_output := none
    switching_enabled := false
    four_device_mode := false
    bluetooth_switching_enabled := false }

/-- `configure_preferred_devices` (lines 428-435): records the legacy
two-device preferences and enables switching.  Note that it does not
touch `four_device_mode`. -/
def AudioDeviceManager.configure_preferred_devices
    (s : AudioDeviceManager) (mic_device output_device : String) :
    AudioDeviceManager :=
  { s with
      preferred_mic_device := some mic_device
      preferred_output_device := some output_device
      switching_enabled := true }

/-- `configure_four_device_switching` (lines 949-961): records the two
device pairs, enables switching and flips on four-device mode. -/
def AudioDeviceManager.configure_four_device_switching
    (s : AudioDeviceManager)
    (dictating_mic dictating_output normal_mic normal_output : String) :
    AudioDeviceManager :=
  { s with
      switching_enabled := true
      four_device_mode := true
      dictating_mic := some dictating_mic
      dictating_output := some dictating_output
      normal_mic := some normal_mic
      normal_output := some normal_output }

/-- `disable_switching` (lines 482-486). -/
def AudioDeviceManager.disable_switching (s : AudioDeviceManager) :
    AudioDeviceManager :=
  { s with switching_enabled := false, four_device_mode := false }

/-- `start_recording_audio_switch_four_device` (lines 963-987): Bluetooth
headset-mode switch (gated on `bluetooth_switching_enabled` inside
`switch_bluetooth_to_headset_mode`), then swap mic and output to the
dictating pair when configured. -/
def AudioDeviceManager.startRecordingAudioSwitchFourDevice
    (s : AudioDeviceManager) : List DeviceAction :=
  if s.switching_enabled = false then []
  else
    (if s.bluetooth_switching_enabled then [DeviceAction.bluetoothToHeadset] else []) ++
    (match s.dictating_mic with
      | some m => if m ≠ "" then [DeviceAction.setDefaultSource m] else []
      | none => []) ++
    (match s.dictating_output with
      | some o => if o ≠ "" then [DeviceAction.setDefaultSink o] else []
      | none => [])

/-- `stop_recording_audio_switch_four_device` (lines 989-1013): swap back
to the normal pair, then Bluetooth A2DP switch. -/
def AudioDeviceManager.stopRecordingAudioSwitchFourDevice
    (s : AudioDeviceManager) : List DeviceAction :=
  if s.switching_enabled = false then []
  else
    (match s.normal_mic with
      | some m => if m ≠ "" then [DeviceAction.setDefaultSource m] else []
      | none => []) ++
    (match s.normal_output with
      | some o => if o ≠ "" then [DeviceAction.setDefaultSink o] else []
      | none => []) ++
    (if s.bluetooth_switching_enabled then [DeviceAction.bluetoothToA2dp] else [])

/-- `start_recording_audio_switch` (lines 437-457): dispatches to the
four-device path when `four_device_mode` is set, otherwise runs the
legacy path — store the current defaults as originals and swap the input
to the preferred microphone. -/
def AudioDeviceManager.start_recording_audio_switch
    (s : AudioDeviceManager) (env : CurrentDevices) :
    AudioDeviceManager × List DeviceAction :=
  if s.four_device_mode then
    (s, s.startRecordingAudioSwitchFourDevice)
  else if s.switching_enabled = false ∨ pyTruthy s.preferred_mic_device = false then
    (s, [])
  else
    ({ s with
        original_mic_device := env.defaultSource
        original_output_device := env.defaultSink },
      match s.preferred_mic_device with
      | some m => [DeviceAction.setDefaultSource m]
      | none => [])

/-- `stop_recording_audio_switch` (lines 459-480): dispatches to the
four-device path when `four_device_mode` is set, otherwise swaps the
output back to the preferred output device (the legacy path deliberately
leaves the microphone on the dictation device). -/
def AudioDeviceManager.stop_recording_audio_switch
    (s : AudioDeviceManager) : AudioDeviceManager × List DeviceAction :=
  if s.four_device_mode then
    (s, s.stopRecordingAudioSwitchFourDevice)
  else if s.switching_enabled = false then
    (s, [])
  else
    (s,
      match s.preferred_output_device with
      | some o => if o ≠ "" then [DeviceAction.setDefaultSink o] else []
      | none => [])

/-- Python's `\s` class (ASCII): space, tab, newline, carriage return,
vertical tab, form feed. -/
def isWsChar (c : Char) : Bool :=
  c = ' ' ∨ c = '\t' ∨ c = '\n' ∨ c = '\r' ∨ c = '\x0b' ∨ c = '\x0c'

/-- Python `str.strip()` on a character list: drop whitespace from both
ends. -/
def pythonStrip (s : List Char) : List Char :=
  ((s.dropWhile isWsChar).reverse.dropWhile isWsChar).reverse

/-- Python `str.strip()` on a string. -/
def pyStrip (s : String) : String := String.mk (pythonStrip s.data)

/-! ## LLMProcessor async entry points (llm_processor.py)

`process_text_async` / `process_text_async_with_context` either emit the
echo event synchronously (disabled path) or spawn a dedicated worker
thread whose job will perform the network call.  Spawned jobs are
returned explicitly, so "no worker thread / no network call" is
`spawnedWorkers = []`. -/

/-- Enablement state of an `LLMProcessor` (`enabled` flag plus whether an
OpenAI client object was constructed). -/
structure LLMProcessor where
  enabled : Bool
  hasClient : Bool
  deriving DecidableEq, Repr

/-- `LLMProcessor.is_enabled` (lines 67-69):
`self.enabled and self.client is not None`. -/
def LLMProcessor.is_enabled (p : LLMProcessor) : Bool :=
  p.enabled && p.hasClient

/-- Signals emitted by `LLMProcessor`. -/
inductive LLMEvent where
  | processingStarted
  | processingFinished (cleanedText : String)
  | processingFinishedWithContext (cleanedText : String) (contextType : String)
  | processingFailed (errorMessage : String)
  deriving DecidableEq, Repr

/-- A background worker job holding the text whose cleanup (and network
request) it would run. -/
structure LLMWorkerJob where
  rawText : String
  withContext : Bool
  deriving DecidableEq, Repr

/-- `process_text_async` (lines 71-112): when disabled, synchronously
emits `processing_finished` with the original text and returns; otherwise
registers and starts one worker thread (the network call happens inside
the worker). -/
def LLMProcessor.process_text_async (p : LLMProcessor) (raw_text : String) :
    List LLMEvent × List LLMWorkerJob :=
  if p.is_enabled = false then
    ([LLMEvent.processingFinished raw_text], [])
  else
    ([LLMEvent.processingStarted], [{ rawText := raw_text, withContext := false }])

/-- `process_text_async_with_context` (lines 122-163): when disabled,
synchronously emits `processing_finished_with_context` with the original
text and context `"unknown"`; otherwise starts one context-aware worker. -/
def LLMProcessor.process_text_async_with_context
    (p : LLMProcessor) (raw_text : String) :
    List LLMEvent × List LLMWorkerJob :=
  if p.is_enabled = false then
    ([LLMEvent.processingFinishedWithContext raw_text "unknown"], [])
  else
    ([LLMEvent.processingStarted], [{ rawText := raw_text, withContext := true }])

/-! ## StreamingTranscriber (streaming_transcriber.py)

We model the batch worker (`_batch_transcribe_worker`, the path actually
taken since `WHISPERFLOW_AVAILABLE = False`) and the LLM completion /
failure handlers.  The speech-to-text engine is an external collaborator:
its output is the worker's `text` argument. -/

/-- Signals emitted by `StreamingTranscriber`. -/
inductive TranscriberEvent where
  | partialResult (text : String) (confidence : ℚ)
  | finalResultWithContext (text : String) (confidence : ℚ) (contextType : String)
  | errorOccurred (message : String)
  | llmCleanupRequested (rawText : String)
  | transcriptionFinished
  deriving DecidableEq, Repr

/-- `StreamingTranscriber` state: the stashed raw transcription
(`self.raw_transcription`, absent until first successfully set), the
in-flight guard, and the (optional) LLM processor. -/
structure StreamingTranscriber where
  raw_transcription : Option String
  is_transcribing : Bool
  llm_processor : Option LLMProcessor
  deriving DecidableEq, Repr

/-- `self.llm_processor and self.llm_processor.is_enabled()`
(streaming_transcriber.py line 215 guard). -/
def StreamingTranscriber.llmActive (s : StreamingTranscriber) : Bool :=
  match s.llm_processor with
  | none => false
  | some p => p.is_enabled

/-- `_batch_transcribe_worker` (lines 197-232), given the speech-to-text
engine's result `text`.  Emits the working indicator; on a non-empty
result stores the stripped raw transcription and either delegates to the
LLM context-aware path or emits the final result directly with context
`"unknown"`; on an empty result emits an error.  The `finally` block
always clears the in-flight guard and emits `transcription_finished`. -/
def StreamingTranscriber.batchTranscribeWorker
    (s : StreamingTranscriber) (text : String) :
    StreamingTranscriber × List TranscriberEvent :=
  let working := [TranscriberEvent.partialResult "Processing..." 0]
  if text ≠ "" ∧ pyStrip text ≠ "" then
    let raw := pyStrip text
    let s' := { s with raw_transcription := some raw, is_transcribing := false }
    if s.llmActive then
      (s', working ++ [TranscriberEvent.llmCleanupRequested raw,
                       TranscriberEvent.transcriptionFinished])
    else
      (s', working ++ [TranscriberEvent.finalResultWithContext raw (9/10) "unknown",
                       TranscriberEvent.transcriptionFinished])
  else
    ({ s with is_transcribing := false },
      working ++ [TranscriberEvent.errorOccurred "No speech detected",
                  TranscriberEvent.transcriptionFinished])

/-- `_on_llm_failed` (lines 248-255): on a cleanup failure, fall back to
emitting the stashed raw transcription with context `"unknown"`; only
when no raw transcription exists is an error emitted. -/
def StreamingTranscriber.onLlmFailed
    (s : StreamingTranscriber) (_errorMessage : String) :
    List TranscriberEvent :=
  match s.raw_transcription with
  | some raw => [TranscriberEvent.finalResultWithContext raw (9/10) "unknown"]
  | none => [TranscriberEvent.errorOccurred
      "Both transcription and LLM processing failed"]

/-! ## LLMProcessor context detection (llm_processor.py lines 184-338)

`_extract_explicit_context` scans the lowered text with `re.search` for
fixed patterns.  Every pattern in the source is a concatenation of
literals, optional literal groups `(x )?`, literal alternations
`(a|b|c)` and `\s*`; we expand each into the ordered list of
literal-or-whitespace sequences that Python's backtracking engine would
try (greedy option first, alternatives in listed order), and search for
the leftmost position where one of them matches. -/

/-- A token of an expanded (backtracking-free) pattern alternative:
a literal, or `\s*`. -/
inductive SeqTok where
  | lit (s : List Char)
  | wsStar
  deriving DecidableEq, Repr

/-- Match one expanded alternative at the head of `s`, returning the
number of characters consumed.  `\s*` is greedy; every literal that
follows `\s*` in the source patterns starts with a non-whitespace
character, so greediness needs no backtracking. -/
def matchSeqAt : List SeqTok → List Char → Option ℕ
  | [], _ => some 0
  | SeqTok.lit l :: ts, s =>
    if l.isPrefixOf s then (matchSeqAt ts (s.drop l.length)).map (· + l.length)
    else none
  | SeqTok.wsStar :: ts, s =>
    let w := (s.takeWhile isWsChar).length
    (matchSeqAt ts (s.drop w)).map (· + w)

/-- A token of a source regex pattern. -/
inductive RegexTok where
  | lit (s : String)
  | group (alternatives : List String)
  | optGroup (s : String)
  | wsStar
  deriving DecidableEq, Repr

/-- Expand a pattern into its alternatives in backtracking order:
an optional group is tried present-first (greedy), an alternation in
listed order, with earlier tokens varying slower. -/
def expandToks : List RegexTok → List (List SeqTok)
  | [] => [[]]
  | RegexTok.lit l :: ts => (expandToks ts).map (fun q => SeqTok.lit l.data :: q)
  | RegexTok.wsStar :: ts => (expandToks ts).map (fun q => SeqTok.wsStar :: q)
  | RegexTok.group as :: ts =>
    let tails := expandToks ts
    as.flatMap (fun a => tails.map (fun q => SeqTok.lit a.data :: q))
  | RegexTok.optGroup o :: ts =>
    let tails := expandToks ts
    (tails.map (fun q => SeqTok.lit o.data :: q)) ++ tails

/-- Match a pattern (its expanded alternatives, in order) at the head of
`s`. -/
def matchPatAt (alternatives : List (List SeqTok)) (s : List Char) : Option ℕ :=
  alternatives.findSome? (fun q => matchSeqAt q s)

/-- Leftmost-match search: try each start position left to right
(including the end-of-string position, as `re.search` does). -/
def searchFrom (alternatives : List (List SeqTok)) : List Char → ℕ → Option (ℕ × ℕ)
  | [], i => (matchPatAt alternatives []).map (fun n => (i, i + n))
  | c :: rest, i =>
    match matchPatAt alternatives (c :: rest) with
    | some n => some (i, i + n)
    | none => searchFrom alternatives rest (i + 1)

/-- `re.search(pat, s)`, returning the matched span `(start, stop)`. -/
def reSearch (pat : List RegexTok) (s : List Char) : Option (ℕ × ℕ) :=
  searchFrom (expandToks pat) s 0

/-- The `context_patterns` table (llm_processor.py lines 195-206), in
insertion order. -/
def contextPatterns : List (String × List (List RegexTok)) :=
  [ ("code_window",
      [[RegexTok.lit "this is ", RegexTok.optGroup "a ",
        RegexTok.group ["code", "coding", "text"], RegexTok.lit " ",
        RegexTok.group ["window", "editor", "message"]],
       [RegexTok.lit "send ", RegexTok.optGroup "this ", RegexTok.lit "as ",
        RegexTok.optGroup "a ", RegexTok.group ["code", "coding"],
        RegexTok.lit " ", RegexTok.group ["window", "message"]],
       [RegexTok.lit "context:", RegexTok.wsStar, RegexTok.lit "code"]]),
    ("coding_agent",
      [[RegexTok.lit "this is ", RegexTok.optGroup "a ",
        RegexTok.lit "coding agent ", RegexTok.group ["request", "message"]],
       [RegexTok.lit "send ", RegexTok.optGroup "this ", RegexTok.lit "to ",
        RegexTok.optGroup "the ", RegexTok.lit "coding agent"],
       [RegexTok.lit "context:", RegexTok.wsStar, RegexTok.lit "coding agent"]]),
    ("slack",
      [[RegexTok.lit "this is ", RegexTok.optGroup "a ", RegexTok.lit "slack message"],
       [RegexTok.lit "send ", RegexTok.optGroup "this ", RegexTok.lit "as ",
        RegexTok.optGroup "a ", RegexTok.lit "slack message"],
       [RegexTok.lit "context:", RegexTok.wsStar, RegexTok.lit "slack"]]),
    ("whatsapp",
      [[RegexTok.lit "this is ", RegexTok.optGroup "a ", RegexTok.lit "whatsapp message"],
       [RegexTok.lit "send ", RegexTok.optGroup "this ", RegexTok.lit "as ",
        RegexTok.optGroup "a ", RegexTok.lit "whatsapp message"],
       [RegexTok.lit "context:", RegexTok.wsStar, RegexTok.lit "whatsapp"]]),
    ("formal_email",
      [[RegexTok.lit "this is ", RegexTok.optGroup "a ", RegexTok.lit "formal email"],
       [RegexTok.lit "send ", RegexTok.optGroup "this ", RegexTok.lit "as ",
        RegexTok.optGroup "a ", RegexTok.lit "formal email"],
       [RegexTok.lit "context:", RegexTok.wsStar, RegexTok.lit "formal email"]]),
    ("casual_email",
      [[RegexTok.lit "this is ", RegexTok.optGroup "a ", RegexTok.lit "casual email"],
       [RegexTok.lit "send ", RegexTok.optGroup "this ", RegexTok.lit "as ",
        RegexTok.optGroup "a ", RegexTok.lit "casual email"],
       [RegexTok.lit "context:", RegexTok.wsStar, RegexTok.lit "casual email"]]),
    ("casual_message",
      [[RegexTok.lit "this is ", RegexTok.optGroup "a ", RegexTok.lit "casual message"],
       [RegexTok.lit "send ", RegexTok.optGroup "this ", RegexTok.lit "as ",
        RegexTok.optGroup "a ", RegexTok.lit "casual message"],
       [RegexTok.lit "context:", RegexTok.wsStar, RegexTok.lit "casual message"]]) ]

/-- `text.lower()` (ASCII). -/
def toLowerChars (s : String) : List Char := s.data.map Char.toLower

/-- The per-category inner loop: `for pat in patterns: re.search(...)`. -/
def searchPatternList : List (List RegexTok) → List Char → Option (ℕ × ℕ)
  | [], _ => none
  | p :: rest, s =>
    match reSearch p s with
    | some span => some span
    | none => searchPatternList rest s

/-- The outer loop over `context_patterns.items()`: first category with a
matching pattern wins. -/
def findContextMatch : List (String × List (List RegexTok)) → List Char →
    Option (String × ℕ × ℕ)
  | [], _ => none
  | (ctx, pats) :: rest, s =>
    match searchPatternList pats s with
    | some (a, b) => some (ctx, a, b)
    | none => findContextMatch rest s

/-- `LLMProcessor._extract_explicit_context` (lines 184-217): search the
lowered text; on a match remove the matched span from the original text
and strip, returning the detected context; otherwise return the text
unchanged with no context. -/
def extractExplicitContext (text : String) : String × Option String :=
  match findContextMatch contextPatterns (toLowerChars text) with
  | some (ctx, a, b) =>
    (String.mk (pythonStrip (text.data.take a ++ text.data.drop b)), some ctx)
  | none => (text, none)

/-- No fixed explicit-context pattern matches `text`. -/
def noExplicitContextMatch (text : String) : Bool :=
  (findContextMatch contextPatterns (toLowerChars text)).isNone

/-! ### `_detect_communication_context` (lines 306-338)

All cue checks are substring containment on the lowered text
(`word in text_lower`). -/

/-- Substring containment (`needle in haystack`). -/
def isSubstr (needle : List Char) : List Char → Bool
  | [] => needle.isEmpty
  | c :: rest => needle.isPrefixOf (c :: rest) || isSubstr needle rest

/-- `any(phrase in text_lower for phrase in …)`. -/
def containsAnyOf (phrases : List String) (textLower : List Char) : Bool :=
  phrases.any (fun p => isSubstr p.data textLower)

/-- An apostrophe character, for the contraction cue phrases. -/
def apostrophe : String := String.mk [Char.ofNat 39]

/-- Code-window cue phrases (lines 312-316). -/
def codeWindowPhrases : List String :=
  ["code window", "coding window", "in a code", "in code", "im in a code",
   "i" ++ apostrophe ++ "m in a code",
   "text editor", "in a text editor",
   "i" ++ apostrophe ++ "m in a text editor",
   "editor window", "code editor"]

/-- Coding-agent cue words (line 318). -/
def codingAgentWords : List String :=
  ["cursor", "code", "coding", "agent", "programming", "debug", "function",
   "variable"]

/-- Slack cue words (line 320). -/
def slackWords : List String := ["slack", "channel", "thread"]

/-- WhatsApp cue words (line 322). -/
def whatsappWords : List String := ["whatsapp", "chat", "message"]

/-- Formal-email salutation phrases (line 324). -/
def formalEmailPhrases : List String :=
  ["dear sir", "dear madam", "to whom it may concern", "yours faithfully",
   "yours sincerely"]

/-- Email words for the business-email rule (line 326). -/
def emailWords : List String := ["email", "mail"]

/-- Business words for the business-email rule (line 326). -/
def businessWords : List String := ["meeting", "proposal", "contract", "business"]

/-- Casual greeting cue words (line 328). -/
def casualGreetingWords : List String := ["hi", "hello", "hey", "cheers", "thanks"]

/-- Formal connective words of the length fallback (line 333). -/
def formalConnectiveWords : List String :=
  ["please", "kindly", "regarding", "furthermore", "however"]

/-- `len(text.split())`: count maximal non-whitespace runs. -/
def countWordsAux : List Char → Bool → ℕ
  | [], _ => 0
  | c :: rest, inWord =>
    if isWsChar c then countWordsAux rest false
    else (if inWord then 0 else 1) + countWordsAux rest true

/-- Number of words of `text` under Python `str.split()`. -/
def wordCount (text : String) : ℕ := countWordsAux text.data false

/-- `LLMProcessor._detect_communication_context` (lines 306-338): the
ordered heuristic keyword rules, then the length/formality fallback. -/
def detectCommunicationContext (text : String) : String :=
  let tl := toLowerChars text
  if containsAnyOf codeWindowPhrases tl then "code_window"
  else if containsAnyOf codingAgentWords tl then "coding_agent"
  else if containsAnyOf slackWords tl then "slack"
  else if containsAnyOf whatsappWords tl then "whatsapp"
  else if containsAnyOf formalEmailPhrases tl then "formal_email"
  else if containsAnyOf emailWords tl && containsAnyOf businessWords tl then
    "formal_email"
  else if containsAnyOf casualGreetingWords tl then "casual_email"
  else if 50 < wordCount text then
    if containsAnyOf formalConnectiveWords tl then "formal_email"
    else "casual_email"
  else "casual_message"

/-- None of the ordered heuristic keyword rules matches `text`. -/
def noHeuristicKeywordMatch (text : String) : Prop :=
  containsAnyOf codeWindowPhrases (toLowerChars text) = false ∧
  containsAnyOf codingAgentWords (toLowerChars text) = false ∧
  containsAnyOf slackWords (toLowerChars text) = false ∧
  containsAnyOf whatsappWords (toLowerChars text) = false ∧
  containsAnyOf formalEmailPhrases (toLowerChars text) = false ∧
  (containsAnyOf emailWords (toLowerChars text) &&
    containsAnyOf businessWords (toLowerChars text)) = false ∧
  containsAnyOf casualGreetingWords (toLowerChars text) = false

instance (text : String) : Decidable (noHeuristicKeywordMatch text) := by
  unfold noHeuristicKeywordMatch
  infer_instance

/-- The context-resolution part of `_clean_dictated_text_with_context`
(lines 265-269): text passed onward for cleanup
(`base_text = cleaned_raw or raw_text`). -/
def resolvedBaseText (raw_text : String) : String :=
  let cleanedRaw := (extractExplicitContext raw_text).1
  if cleanedRaw = "" then raw_text else cleanedRaw

/-- The context-resolution part of `_clean_dictated_text_with_context`
(lines 265-269): `context_type = explicit_ctx or
self._detect_communication_context(base_text)`. -/
def resolveContext (raw_text : String) : String :=
  match (extractExplicitContext raw_text).2 with
  | some c => c
  | none => detectCommunicationContext (resolvedBaseText raw_text)

/-- The manager state reached by configuring four-device switching and
then configuring the legacy preferred devices. -/
def legacyAfterFourDevice : AudioDeviceManager :=
  (AudioDeviceManager.init.configure_four_device_switching
    "dict_mic" "dict_out" "norm_mic" "norm_out").configure_preferred_devices
    "legacy_mic" "legacy_out"

/-!
# Theorems
-/

/-- Helper for C1 and C3: the drain loop collects exactly the queued
chunks in arrival order. -/
theorem drainLoop_eq (q : List Chunk) : drainLoop q = q := by
  induction q with
  | nil => rfl
  | cons c rest ih => simp [drainLoop, ih]

/-- Helper for C3: `np.concatenate` over the chunk list stacks all frames
in order. -/
theorem concatChunks_eq_flatMap (q : List Chunk) :
    concatChunks q = q.flatMap id := by
  induction q with
  | nil => rfl
  | cons c rest ih => simp [concatChunks, ih] at *; simp [concatChunks, ih]

/-- Helper for C1: the total length of the frames of `n` identical
chunks. -/
theorem length_concatChunks_replicate (n : ℕ) (c : Chunk) :
    (concatChunks (List.replicate n c)).length = n * c.length := by
  induction n with
  | zero => simp [concatChunks]
  | succ m ih =>
    simp only [List.replicate_succ, concatChunks, List.foldr_cons,
      List.length_append, Nat.succ_mul]
    have : (List.replicate m c).foldr (fun c acc => c ++ acc) [] =
        concatChunks (List.replicate m c) := rfl
    rw [this, ih]
    omega

/-- Helper for C1: in a session whose capture thread never fails and
whose stop request arrives before the minimum duration, the polling loop
exits exactly at tick 10 (elapsed 500 ms), given sufficient fuel. -/
theorem runLoopTick_healthy_exit (env : SessionEnv)
    (hstop : env.stopRequestMs < minRecordingMs)
    (hhealthy : env.captureFailTick = none) :
    ∀ fuel k, k ≤ 10 → 10 - k < fuel → runLoopTick env fuel k = 10 := by
  intro fuel
  induction fuel with
  | zero =>
    intro k _ hfuel
    exact absurd hfuel (Nat.not_lt_zero _)
  | succ n ih =>
    intro k hk hfuel
    have hrec : isRecordingAt env k = true := by
      simp [isRecordingAt, hhealthy]
    by_cases hk10 : k = 10
    · subst hk10
      have hcond : ¬ (isRecordingAt env 10 = true ∧
          (¬ env.stopRequestMs ≤ 10 * pollIntervalMs ∨
            10 * pollIntervalMs < minRecordingMs)) := by
        simp only [minRecordingMs, pollIntervalMs] at hstop ⊢
        intro hc
        rcases hc.2 with hc2 | hc2
        · exact hc2 (by omega)
        · omega
      rw [runLoopTick, if_neg hcond]
    · have hklt : k < 10 := lt_of_le_of_ne hk hk10
      have hcond : isRecordingAt env k = true ∧
          (¬ env.stopRequestMs ≤ k * pollIntervalMs ∨
            k * pollIntervalMs < minRecordingMs) := by
        refine ⟨hrec, Or.inr ?_⟩
        simp only [minRecordingMs, pollIntervalMs]
        omega
      rw [runLoopTick, if_pos hcond]
      exact ih (k + 1) (by omega) (by omega)

/-- C1 counterexample: a session whose capture thread errors out at tick
2 (clearing `is_recording`, as the error handlers in audio_recorder.py
do) while the stop request arrived at 100 ms.  The run loop's
`is_recording` conjunct makes it exit at 100 ms — before the 500 ms
minimum — and the `stop_recording` call returns no audio at all, so the
claim as universally stated is false. -/
theorem early_capture_failure_cuts_short :
    (runSession { stopRequestMs := 100, captureFailTick := some 2 }).stopCallMs = 100 ∧
    (runSession { stopRequestMs := 100, captureFailTick := some 2 }).audio = none := by
  decide

/-- C1 (amended): in a session whose capture thread keeps capturing (no
error clears `is_recording`), a stop request arriving before 500 ms does
not make `RecordingThread.run` call `AudioRecorder.stop_recording` before
500 ms have elapsed, and the buffer that `stop_recording` then drains
from the recorder's queue spans at least the minimum duration
(sample count / sample rate ≥ 1/2 s); if the capture thread fails early,
the loop instead exits immediately through its `is_recording` conjunct. -/
theorem recordingThread_min_duration (env : SessionEnv)
    (hstop : env.stopRequestMs < minRecordingMs)
    (hhealthy : env.captureFailTick = none) :
    minRecordingMs ≤ (runSession env).stopCallMs ∧
    ∃ buf, (runSession env).audio = some buf ∧ sampleRate ≤ 2 * buf.length := by
  have hexit : runLoopTick env (env.stopRequestMs + minRecordingMs) 0 = 10 := by
    apply runLoopTick_healthy_exit env hstop hhealthy
    · omega
    · simp only [minRecordingMs]
      omega
  have hrec : isRecordingAt env 10 = true := by
    simp [isRecordingAt, hhealthy]
  have hq : queueAt env 10 = List.replicate 10 captureChunk := by
    simp [queueAt, hhealthy]
  constructor
  · simp only [runSession, hexit]
    decide
  · refine ⟨(concatChunks (List.replicate 10 captureChunk)).map channelMean, ?_, ?_⟩
    · simp only [runSession, hexit, hrec, hq, AudioRecorder.stop_recording,
        drainLoop_eq]
      simp
    · rw [List.length_map, length_concatChunks_replicate]
      simp only [captureChunk, List.length_replicate]
      decide

/-- C1 witness: a healthy session with a stop request at 100 ms. -/
theorem recordingThread_min_duration_witness :
    (100 < minRecordingMs ∧
      ({ stopRequestMs := 100, captureFailTick := none } :
        SessionEnv).captureFailTick = none) ∧
    (minRecordingMs ≤
        (runSession { stopRequestMs := 100, captureFailTick := none }).stopCallMs ∧
      ∃ buf,
        (runSession { stopRequestMs := 100, captureFailTick := none }).audio =
          some buf ∧
        sampleRate ≤ 2 * buf.length) :=
  ⟨⟨by decide, rfl⟩,
    recordingThread_min_duration { stopRequestMs := 100, captureFailTick := none }
      (by decide) rfl⟩

/-- C2: `AudioRecorder.start_recording` is idempotent — when already
recording, a second call returns with the state unchanged and performs no
effect (no capture thread spawned, no queue replacement). -/
theorem start_recording_idempotent (s : AudioRecorder)
    (h : s.is_recording = true) :
    s.start_recording = (s, []) := by
  simp [AudioRecorder.start_recording, h]

/-- C2 witness: a recorder mid-capture. -/
theorem start_recording_idempotent_witness :
    ({ is_recording := true, audio_queue := [[[1]]], threadAlive := true,
       threadResponsive := true } : AudioRecorder).is_recording = true ∧
    ({ is_recording := true, audio_queue := [[[1]]], threadAlive := true,
       threadResponsive := true } : AudioRecorder).start_recording =
      ({ is_recording := true, audio_queue := [[[1]]], threadAlive := true,
         threadResponsive := true }, []) :=
  ⟨rfl, start_recording_idempotent _ rfl⟩

/-- C3: while recording, `AudioRecorder.stop_recording` returns `none`
when the queue held no chunks, and otherwise the ordered concatenation of
the queued chunks channel-averaged to mono. -/
theorem stop_recording_drains_in_order (s : AudioRecorder)
    (h : s.is_recording = true) :
    s.stop_recording.2.1 =
      if s.audio_queue.isEmpty then none
      else some (orderedMonoConcat s.audio_queue) := by
  simp [AudioRecorder.stop_recording, h, drainLoop_eq, concatChunks_eq_flatMap,
    orderedMonoConcat]

/-- C3 witness: two queued stereo chunks drain to their ordered
channel-averaged concatenation; an empty queue drains to `none`. -/
theorem stop_recording_drains_in_order_witness :
    ({ is_recording := true, audio_queue := [[[1, 2], [3, 4]], [[5, 7]]],
       threadAlive := true, threadResponsive := true } : AudioRecorder).stop_recording.2.1 =
      some [3/2, 7/2, 6] ∧
    ({ is_recording := true, audio_queue := [], threadAlive := true,
       threadResponsive := true } : AudioRecorder).stop_recording.2.1 = none := by
  constructor
  · rw [stop_recording_drains_in_order _ rfl]
    simp [orderedMonoConcat, channelMean]
    norm_num
  · rw [stop_recording_drains_in_order _ rfl]
    simp

/-- C9: `AudioRecorder.stop_recording` while idle returns `none`, performs
no effect (no stream/subprocess/queue operation) and leaves the state
unchanged. -/
theorem stop_recording_idle_noop (s : AudioRecorder)
    (h : s.is_recording = false) :
    s.stop_recording = (s, none, []) := by
  simp [AudioRecorder.stop_recording, h]

/-- C9 witness: a never-started recorder. -/
theorem stop_recording_idle_noop_witness :
    ({ is_recording := false, audio_queue := [], threadAlive := false,
       threadResponsive := true } : AudioRecorder).is_recording = false ∧
    ({ is_recording := false, audio_queue := [], threadAlive := false,
       threadResponsive := true } : AudioRecorder).stop_recording =
      ({ is_recording := false, audio_queue := [], threadAlive := false,
         threadResponsive := true }, none, []) :=
  ⟨rfl, stop_recording_idle_noop _ rfl⟩

/-- C4 counterexample: configuring the legacy preferred devices after
four-device switching does NOT disable four-device mode —
`configure_preferred_devices` never clears `four_device_mode`, so a
subsequent recording start still swaps the dictating pair, not the newly
configured legacy microphone. -/
theorem configure_preferred_keeps_four_device_mode :
    legacyAfterFourDevice.four_device_mode = true ∧
    (legacyAfterFourDevice.start_recording_audio_switch ⟨none, none⟩).2 =
      [DeviceAction.setDefaultSource "dict_mic",
       DeviceAction.setDefaultSink "dict_out"] := by
  decide

/-- C4 (amended): configuring four-device switching disables legacy
two-device switching — after `configure_four_device_switching` the
recording start/stop pair dispatches only to the four-device path, so
only that mode's devices are swapped; the converse direction fails
(`configure_preferred_devices` leaves `four_device_mode` untouched). -/
theorem configure_four_device_disables_legacy (s : AudioDeviceManager)
    (dm dout nm nout : String) (env : CurrentDevices) :
    (s.configure_four_device_switching dm dout nm nout).four_device_mode = true ∧
    (s.configure_four_device_switching dm dout nm nout).start_recording_audio_switch env =
      (s.configure_four_device_switching dm dout nm nout,
        (s.configure_four_device_switching dm dout nm nout).startRecordingAudioSwitchFourDevice) ∧
    (s.configure_four_device_switching dm dout nm nout).stop_recording_audio_switch =
      (s.configure_four_device_switching dm dout nm nout,
        (s.configure_four_device_switching dm dout nm nout).stopRecordingAudioSwitchFourDevice) := by
  refine ⟨rfl, ?_, ?_⟩ <;>
    simp [AudioDeviceManager.configure_four_device_switching,
      AudioDeviceManager.start_recording_audio_switch,
      AudioDeviceManager.stop_recording_audio_switch]

/-- C5: a non-empty transcription with LLM cleanup enabled delegates to
the context-aware cleanup path, and on cleanup failure the transcriber
emits the raw pre-cleanup transcription with context "unknown" — the
utterance is never dropped. -/
theorem llm_failure_falls_back_to_raw (s : StreamingTranscriber)
    (text msg : String) (hne : text ≠ "" ∧ pyStrip text ≠ "")
    (hllm : s.llmActive = true) :
    (s.batchTranscribeWorker text).2 =
      [TranscriberEvent.partialResult "Processing..." 0,
       TranscriberEvent.llmCleanupRequested (pyStrip text),
       TranscriberEvent.transcriptionFinished] ∧
    ((s.batchTranscribeWorker text).1).onLlmFailed msg =
      [TranscriberEvent.finalResultWithContext (pyStrip text) (9/10) "unknown"] := by
  simp [StreamingTranscriber.batchTranscribeWorker,
    StreamingTranscriber.onLlmFailed, hne, hllm]

/-- C5 witness: raw transcription " hello " with an enabled processor and
a failing cleanup. -/
theorem llm_failure_falls_back_to_raw_witness :
    ((" hello " : String) ≠ "" ∧ pyStrip " hello " ≠ "") ∧
    ({ raw_transcription := none, is_transcribing := true,
       llm_processor := some { enabled := true, hasClient := true } } :
        StreamingTranscriber).llmActive = true ∧
    ((({ raw_transcription := none, is_transcribing := true,
         llm_processor := some { enabled := true, hasClient := true } } :
          StreamingTranscriber).batchTranscribeWorker " hello ").1).onLlmFailed "boom" =
      [TranscriberEvent.finalResultWithContext (pyStrip " hello ") (9/10) "unknown"] :=
  ⟨by decide, by decide,
    (llm_failure_falls_back_to_raw _ " hello " "boom" (by decide) (by decide)).2⟩

/-- C8: when the LLM processor is disabled, both async entry points
synchronously emit the input text unchanged (with context "unknown" for
the context-aware one) and spawn no worker — hence no network call. -/
theorem disabled_processor_echoes_input (p : LLMProcessor) (raw_text : String)
    (h : p.is_enabled = false) :
    p.process_text_async raw_text = ([LLMEvent.processingFinished raw_text], []) ∧
    p.process_text_async_with_context raw_text =
      ([LLMEvent.processingFinishedWithContext raw_text "unknown"], []) := by
  simp [LLMProcessor.process_text_async,
    LLMProcessor.process_text_async_with_context, h]

/-- C8 witness: a processor without credentials, on input "hello". -/
theorem disabled_processor_echoes_input_witness :
    ({ enabled := false, hasClient := false } : LLMProcessor).is_enabled = false ∧
    (({ enabled := false, hasClient := false } : LLMProcessor).process_text_async "hello" =
      ([LLMEvent.processingFinished "hello"], []) ∧
     ({ enabled := false, hasClient := false } : LLMProcessor).process_text_async_with_context "hello" =
      ([LLMEvent.processingFinishedWithContext "hello" "unknown"], [])) :=
  ⟨rfl, disabled_processor_echoes_input _ "hello" rfl⟩

/-- C6 counterexample: for an input consisting solely of the instruction
phrase, removing the matched span empties the text, and the
`base_text = cleaned_raw or raw_text` fallback (llm_processor.py line
268) forwards the raw text with the instruction phrase still present —
so the claim's universal "the matched phrase is removed from the text
passed onward" is false on the code. -/
theorem instruction_only_text_keeps_phrase :
    extractExplicitContext "context: slack" = ("", some "slack") ∧
    resolveContext "context: slack" = "slack" ∧
    resolvedBaseText "context: slack" = "context: slack" ∧
    isSubstr "context: slack".data (resolvedBaseText "context: slack").data = true := by
  decide

/-- C6 (amended): when an explicit context-instruction phrase matches,
context resolution uses that explicit context (the heuristic detector is
never consulted, whatever cues are present) and the text passed onward
for cleanup is the input with the matched phrase removed — unless the
removal leaves the empty string, in which case the raw text, phrase
included, is passed onward; in particular a text containing
"context: slack" together with casual-email cues resolves to slack with
the phrase absent. -/
theorem explicit_context_overrides_heuristics (text cleanedText ctx : String)
    (h : extractExplicitContext text = (cleanedText, some ctx)) :
    resolveContext text = ctx ∧
    resolvedBaseText text = (if cleanedText = "" then text else cleanedText) := by
  constructor
  · simp [resolveContext, h]
  · simp [resolvedBaseText, h]

/-- C6 witness: "thanks context: slack" carries a casual-email cue
("thanks") yet resolves to slack, with the instruction phrase absent from
the forwarded text. -/
theorem explicit_context_overrides_heuristics_witness :
    extractExplicitContext "thanks context: slack" = ("thanks", some "slack") ∧
    containsAnyOf casualGreetingWords (toLowerChars "thanks context: slack") = true ∧
    resolveContext "thanks context: slack" = "slack" ∧
    resolvedBaseText "thanks context: slack" =
      (if ("thanks" : String) = "" then "thanks context: slack" else "thanks") :=
  ⟨by decide, by decide,
    (explicit_context_overrides_heuristics "thanks context: slack" "thanks" "slack"
      (by decide)).1,
    (explicit_context_overrides_heuristics "thanks context: slack" "thanks" "slack"
      (by decide)).2⟩

/-- C10: when no fixed explicit-context pattern matches,
`_extract_explicit_context` returns the input text unchanged with no
detected context. -/
theorem extract_without_match_is_identity (text : String)
    (h : noExplicitContextMatch text = true) :
    extractExplicitContext text = (text, none) := by
  have heq : findContextMatch contextPatterns (toLowerChars text) = none := by
    simpa [noExplicitContextMatch, Option.isNone_iff_eq_none] using h
  simp [extractExplicitContext, heq]

/-- C10 witness: "good morning world" matches no pattern and passes
through unchanged. -/
theorem extract_without_match_is_identity_witness :
    noExplicitContextMatch "good morning world" = true ∧
    extractExplicitContext "good morning world" = ("good morning world", none) :=
  ⟨by decide, extract_without_match_is_identity "good morning world" (by decide)⟩

/-- C7: when no heuristic keyword rule matches,
`_detect_communication_context` falls back to length and formality: texts
of more than 50 words classify as formal_email exactly when a formal
connective occurs, else casual_email; shorter texts classify as
casual_message. -/
theorem detect_fallback_length_formality (text : String)
    (h : noHeuristicKeywordMatch text) :
    detectCommunicationContext text =
      if 50 < wordCount text then
        if containsAnyOf formalConnectiveWords (toLowerChars text) then "formal_email"
        else "casual_email"
      else "casual_message" := by
  obtain ⟨h1, h2, h3, h4, h5, h6, h7⟩ := h
  simp [detectCommunicationContext, h1, h2, h3, h4, h5, h6, h7]

set_option maxRecDepth 40000 in
/-- C7 witness: a 60-word plain text with no keyword or connective cues
classifies as casual_email; the corresponding 10-word text classifies as
casual_message. -/
theorem detect_fallback_length_formality_witness :
    noHeuristicKeywordMatch (String.join (List.replicate 60 "red ")) ∧
    detectCommunicationContext (String.join (List.replicate 60 "red ")) = "casual_email" ∧
    noHeuristicKeywordMatch (String.join (List.replicate 10 "red ")) ∧
    detectCommunicationContext (String.join (List.replicate 10 "red ")) = "casual_message" := by
  refine ⟨by decide, ?_, by decide, ?_⟩
  · rw [detect_fallback_length_formality _ (by decide)]
    decide
  · rw [detect_fallback_length_formality _ (by decide)]
    decide

end WhisperKey
